import Mathlib

/-!
Verification of the Skratch YouTube multi-channel RSS aggregator
(`youtube_rss_aggregator.py`).

The development shallowly embeds the pipeline of the script:

* the two entry normalizers `fetch_standard_rss_feed` and
  `fetch_channel_feed` (their per-entry bodies are `normalizeStandardEntry`
  and `normalizeChannelEntry`);
* the aggregation step of `main` (concatenate per-source lists, stable sort
  by publication date descending, cap at `MAX_TOTAL_ITEMS`);
* the MRSS serializer `build_mrss_feed` (element tree construction and the
  `tostring`-style escaping emission).

Python dictionaries holding only string-or-absent fields are embedded as
structures of `Option String`; Python truthiness on such values (`if x:`)
is `pyTruthyOpt`/`pyTruthy`.  `datetime` values are embedded as records of
seven natural numbers (year .. second, microsecond), compared
lexicographically like Python compares `datetime`s; the non-deterministic
`datetime.now()` calls are passed in as explicit parameters and may carry
any sub-second content, as the real clock does.  Network fetching and `feedparser`
are external collaborators: a source's fetch/parse outcome enters the
embedded functions as `Except String (List RawEntry)`.

Two deterministic reformatting details of the script are not re-modelled
character by character, as no property below depends on them: the prefix
names ElementTree invents for namespaced tags (tags are serialized as
stored), and the `minidom.toprettyxml` re-indentation pass at the end of
`build_mrss_feed` (a pure reformatting of the serialized tree).
-/

/-! ## Python-style helpers -/

/-- Truthiness of a Python string (`if s:`): false exactly for `""`. -/
def pyTruthy (s : String) : Bool := !s.isEmpty

/-- Truthiness of an optional Python string: `None` and `""` are falsy. -/
def pyTruthyOpt : Option String → Bool
  | none => false
  | some s => !s.isEmpty

/-- Python `a or b` on strings. -/
def pyOr (a b : String) : String := if a.isEmpty then b else a

/-- Characters stripped by Python `str.strip()`. -/
def isPySpace (c : Char) : Bool :=
  c = ' ' || c = '\t' || c = '\n' || c = '\r' || c.toNat = 11 || c.toNat = 12

/-- Leading-whitespace removal half of `str.strip()`. -/
def dropLeadingWs (l : List Char) : List Char := l.dropWhile isPySpace

/-- Trailing-whitespace removal half of `str.strip()`. -/
def dropTrailingWs (l : List Char) : List Char :=
  (l.reverse.dropWhile isPySpace).reverse

/-- Python `str.strip()` with no argument. -/
def pyStrip (s : String) : String := ⟨dropTrailingWs (dropLeadingWs s.data)⟩

/-! ## Escaping functions

`htmlEscape` is Python's `html.escape` (quote=True).  `xmlEscapeText` and
`xmlEscapeAttr` are ElementTree's `_escape_cdata` and `_escape_attrib`,
applied by `tostring` to every text node and attribute value. -/

def htmlEscapeChar (c : Char) : String :=
  if c = '&' then "&amp;"
  else if c = '<' then "&lt;"
  else if c = '>' then "&gt;"
  else if c = '"' then "&quot;"
  else if c.toNat = 39 then "&#x27;"
  else String.singleton c

def htmlEscape (s : String) : String := String.join (s.data.map htmlEscapeChar)

def xmlEscapeTextChar (c : Char) : String :=
  if c = '&' then "&amp;"
  else if c = '<' then "&lt;"
  else if c = '>' then "&gt;"
  else String.singleton c

def xmlEscapeText (s : String) : String :=
  String.join (s.data.map xmlEscapeTextChar)

def xmlEscapeAttrChar (c : Char) : String :=
  if c = '&' then "&amp;"
  else if c = '<' then "&lt;"
  else if c = '>' then "&gt;"
  else if c = '"' then "&quot;"
  else if c = '\r' then "&#13;"
  else if c = '\n' then "&#10;"
  else if c = '\t' then "&#09;"
  else String.singleton c

def xmlEscapeAttr (s : String) : String :=
  String.join (s.data.map xmlEscapeAttrChar)

/-! ## Regular expressions used by the script

`re.sub(r'<[^>]+>', '', s)` (tag stripping) and
`re.search(r"v=([a-zA-Z0-9_-]{11})", link)` (video id extraction). -/

/-- Skip to just past the first `'>'`; `none` if there is no `'>'`. -/
def skipToGt : List Char → Option (List Char)
  | [] => none
  | c :: rest => if c = '>' then some rest else skipToGt rest

/-- Given the characters following a `'<'`, consume a `[^>]+>` match:
at least one non-`'>'` character followed by the first `'>'`. -/
def dropTag : List Char → Option (List Char)
  | [] => none
  | c :: rest => if c = '>' then none else skipToGt rest

/-- `re.sub(r'<[^>]+>', '', ·)` over the characters of a string. -/
def stripTags : List Char → List Char
  | [] => []
  | c :: rest =>
    if c = '<' then
      match h : dropTag rest with
      | some rest' => stripTags rest'
      | none => c :: stripTags rest
    else c :: stripTags rest
termination_by l => l.length
decreasing_by
  · have hskip : ∀ l l' : List Char, skipToGt l = some l' → l'.length < l.length := by
      intro l
      induction l with
      | nil => intro l' h2; simp [skipToGt] at h2
      | cons a as ih =>
        intro l' h2
        by_cases ha : a = '>'
        · simp [skipToGt, ha] at h2
          subst h2
          simp
        · simp [skipToGt, ha] at h2
          have := ih l' h2
          simp
          omega
    have hdrop : rest'.length < rest.length := by
      cases rest with
      | nil => simp [dropTag] at h
      | cons a as =>
        by_cases ha : a = '>'
        · simp [dropTag, ha] at h
        · simp [dropTag, ha] at h
          have := hskip as rest' h
          simp
          omega
    simp
    omega
  · simp
  · simp

/-- One character of the class `[a-zA-Z0-9_-]`. -/
def isIdChar (c : Char) : Bool := c.isAlphanum || c = '_' || c = '-'

/-- `re.search(r"v=([a-zA-Z0-9_-]{11})", ·)`: the first position where
`v=` is followed by eleven identifier characters; returns the captured
group. -/
def findVideoId : List Char → Option String
  | [] => none
  | 'v' :: rest =>
    match rest with
    | '=' :: rest2 =>
      let cand := rest2.take 11
      if cand.length = 11 && cand.all isIdChar then some ⟨cand⟩
      else findVideoId rest
    | _ => findVideoId rest
  | _ :: rest => findVideoId rest

/-! ## Time model

`feedparser` publish times arrive as 9-field `struct_time` tuples;
`datetime(*t[:6])` keeps only the first six calendar fields — whole-second
precision.  `datetime` values compare lexicographically on those fields. -/

structure TimeStruct where
  tm_year : Nat
  tm_mon : Nat
  tm_mday : Nat
  tm_hour : Nat
  tm_min : Nat
  tm_sec : Nat
  tm_wday : Int
  tm_yday : Int
  tm_isdst : Int
deriving DecidableEq

structure DateTime where
  year : Nat
  month : Nat
  day : Nat
  hour : Nat
  minute : Nat
  second : Nat
  microsecond : Nat
deriving DecidableEq

/-- `datetime(*t[:6])`: only the six calendar fields survive; the
`microsecond` argument is left at its default `0`. -/
def dtOfTimeStruct (t : TimeStruct) : DateTime :=
  ⟨t.tm_year, t.tm_mon, t.tm_mday, t.tm_hour, t.tm_min, t.tm_sec, 0⟩

def dtList (d : DateTime) : List Nat :=
  [d.year, d.month, d.day, d.hour, d.minute, d.second, d.microsecond]

/-- `datetime` comparison: lexicographic on the calendar fields. -/
def dtLe (a b : DateTime) : Bool := decide (dtList a ≤ dtList b)

/-! ## Data model -/

/-- One element of `entry.media_content` / `entry.media_thumbnail`. -/
structure MediaRef where
  medium : Option String
  type : Option String
  url : Option String
deriving DecidableEq

/-- A raw `feedparser` entry: a bag of optional fields, exactly the keys
the script reads. -/
structure RawEntry where
  title : Option String
  link : Option String
  summary : Option String
  description : Option String
  published : Option String
  published_parsed : Option TimeStruct
  updated_parsed : Option TimeStruct
  author : Option String
  dc_creator : Option String
  yt_videoid : Option String
  media_content : List MediaRef
  media_thumbnail : List MediaRef
deriving DecidableEq

/-- One element of `RSS_FEEDS`. -/
structure FeedCfg where
  name : Option String
  url : Option String
  content_type : Option String
deriving DecidableEq

/-- One element of `YOUTUBE_CHANNELS`. -/
structure ChannelCfg where
  name : Option String
  channel_id : Option String
  handle : Option String
deriving DecidableEq

/-- The normalized entry dictionary both fetchers append. -/
structure Entry where
  title : String
  link : String
  video_id : Option String
  description : String
  published : DateTime
  published_str : String
  author : String
  channel_name : String
  channel_id : Option String
  thumbnail_default : String
  thumbnail_medium : String
  thumbnail_high : String
  thumbnail_maxres : String
  embed_url : Option String
  content_type : String
deriving DecidableEq

/-! ## Configuration constants -/

def MAX_ITEMS_PER_CHANNEL : Nat := 25

def MAX_TOTAL_ITEMS : Nat := 50

def FEED_TITLE : String := "Skratch Golf Video Feed"

def FEED_DESCRIPTION : String :=
  "Combined video feed from Skratch Golf YouTube channels"

def FEED_LINK : String := "https://skratch.golf"

def YOUTUBE_CHANNELS : List ChannelCfg :=
  [⟨some "Skratch", some "UCwtGQ3sgidNlQGbIUBPP3xw", none⟩,
   ⟨some "Dan On Golf Show", some "UCQvs9V1djea1wFurLJPlqMg", none⟩]

def RSS_FEEDS : List FeedCfg :=
  [⟨some "Skratch Articles", some "https://www.skratch.golf/rss", some "article"⟩]

/-! ## Entry normalizers -/

/-- `entry.get("published_parsed") or entry.get("updated_parsed")`. -/
def pickParsed (e : RawEntry) : Option TimeStruct :=
  match e.published_parsed with
  | some t => some t
  | none => e.updated_parsed

/-- The `media_content` scan of `fetch_standard_rss_feed`: the first
reference whose medium is `image` or whose type starts with `image`. -/
def findImageThumb : List MediaRef → String
  | [] => ""
  | m :: ms =>
    if m.medium = some "image" || (m.type.getD "").startsWith "image" then
      m.url.getD ""
    else findImageThumb ms

/-- The thumbnail selection of `fetch_standard_rss_feed`: the
`media_content` scan, then (if that gave a falsy result) the first
`media_thumbnail` url. -/
def standardThumbnail (e : RawEntry) : String :=
  let thumbnail := findImageThumb e.media_content
  if thumbnail.isEmpty then
    match e.media_thumbnail with
    | [] => thumbnail
    | m :: _ => m.url.getD ""
  else thumbnail

/-- The per-entry body of the `fetch_standard_rss_feed` loop. -/
def normalizeStandardEntry (now : DateTime) (cfg : FeedCfg) (e : RawEntry) :
    Entry :=
  let pub_datetime : DateTime :=
    match pickParsed e with
    | some t => dtOfTimeStruct t
    | none => now
  let thumbnail := standardThumbnail e
  let description := pyOr (e.description.getD "") (e.summary.getD "")
  let description_plain : String := ⟨(stripTags description.data).take 500⟩
  { title := e.title.getD "Untitled"
    link := e.link.getD ""
    video_id := none
    description := description_plain
    published := pub_datetime
    published_str := e.published.getD ""
    author := pyOr (e.author.getD "") (e.dc_creator.getD (cfg.name.getD "Skratch"))
    channel_name := cfg.name.getD "Unknown"
    channel_id := none
    thumbnail_default := thumbnail
    thumbnail_medium := thumbnail
    thumbnail_high := thumbnail
    thumbnail_maxres := thumbnail
    embed_url := none
    content_type := cfg.content_type.getD "article" }

/-- `fetch_standard_rss_feed`: the parse result of the feed URL comes in
as an `Except`; a failure contributes no entries. -/
def fetch_standard_rss_feed (now : DateTime) (cfg : FeedCfg)
    (result : Except String (List RawEntry)) : List Entry :=
  if pyTruthyOpt cfg.url = false then []
  else
    match result with
    | .error _ => []
    | .ok es => (es.take MAX_ITEMS_PER_CHANNEL).map (normalizeStandardEntry now cfg)

/-- The video id resolution of `fetch_channel_feed`: the `yt_videoid` tag
if truthy, else the `v=`-parameter extraction from the link, else `""`. -/
def resolvedVideoId (e : RawEntry) : String :=
  let video_id := e.yt_videoid.getD ""
  if video_id.isEmpty then
    match findVideoId (e.link.getD "").data with
    | some m => m
    | none => video_id
  else video_id

/-- The per-entry body of the `fetch_channel_feed` loop. -/
def normalizeChannelEntry (now : DateTime) (ch : ChannelCfg)
    (cid : Option String) (e : RawEntry) : Entry :=
  let video_id := resolvedVideoId e
  let pub_datetime : DateTime :=
    match e.published_parsed with
    | some t => dtOfTimeStruct t
    | none => now
  { title := e.title.getD "Untitled"
    link := e.link.getD ""
    video_id := some video_id
    description := e.summary.getD ""
    published := pub_datetime
    published_str := e.published.getD ""
    author := e.author.getD (ch.name.getD "Skratch")
    channel_name := ch.name.getD "Unknown"
    channel_id := cid
    thumbnail_default := "https://img.youtube.com/vi/" ++ video_id ++ "/default.jpg"
    thumbnail_medium := "https://img.youtube.com/vi/" ++ video_id ++ "/mqdefault.jpg"
    thumbnail_high := "https://img.youtube.com/vi/" ++ video_id ++ "/hqdefault.jpg"
    thumbnail_maxres := "https://img.youtube.com/vi/" ++ video_id ++ "/maxresdefault.jpg"
    embed_url := some ("https://www.youtube.com/embed/" ++ video_id)
    content_type := "video" }

/-- `fetch_channel_feed`.  The network-resolving
`resolve_handle_to_channel_id` collaborator is passed in as a function. -/
def fetch_channel_feed (now : DateTime) (resolveHandle : String → Option String)
    (ch : ChannelCfg) (result : Except String (List RawEntry)) : List Entry :=
  let channel_id : Option String :=
    if !(pyTruthyOpt ch.channel_id) && pyTruthyOpt ch.handle then
      resolveHandle (ch.handle.getD "")
    else ch.channel_id
  if pyTruthyOpt channel_id = false then []
  else
    match result with
    | .error _ => []
    | .ok es => (es.take MAX_ITEMS_PER_CHANNEL).map (normalizeChannelEntry now ch channel_id)

/-! ## Aggregation (`main`, lines 372-388)

`all_entries.sort(key=lambda x: x["published"], reverse=True)` is a stable
descending sort: `a` may precede `b` exactly when `b`'s date is at most
`a`'s, and equal dates keep concatenation order. -/

/-- The comparison the stable descending sort effectively uses: `a` may
stay before `b` iff `b.published ≤ a.published`. -/
def entryBefore (a b : Entry) : Bool := dtLe b.published a.published

def sortEntries (l : List Entry) : List Entry := l.mergeSort entryBefore

/-- Concatenate the per-source lists in configuration order, sort by
publication date descending (stable), cap the total. -/
def aggregateCap (totalCap : Nat) (perSource : List (List Entry)) : List Entry :=
  (sortEntries perSource.flatten).take totalCap

def aggregate (perSource : List (List Entry)) : List Entry :=
  aggregateCap MAX_TOTAL_ITEMS perSource

/-- The entry-collection phase of `main`: every configured source
contributes its fetched list, in configuration order. -/
def mainEntries (now : DateTime) (resolveHandle : String → Option String)
    (channels : List (ChannelCfg × Except String (List RawEntry)))
    (feeds : List (FeedCfg × Except String (List RawEntry))) : List Entry :=
  (channels.map fun p => fetch_channel_feed now resolveHandle p.1 p.2).flatten ++
    (feeds.map fun p => fetch_standard_rss_feed now p.1 p.2).flatten

/-! ## Serializer (`build_mrss_feed`)

An ElementTree element: tag, attributes in insertion order, text (Python
`None` and `""` are both falsy, embedded as `""`), children. -/

inductive Elem where
  | mk (tag : String) (attrs : List (String × String)) (text : String)
      (children : List Elem)

def Elem.tag : Elem → String
  | .mk t _ _ _ => t

def Elem.attrs : Elem → List (String × String)
  | .mk _ a _ _ => a

def Elem.text : Elem → String
  | .mk _ _ t _ => t

def Elem.children : Elem → List Elem
  | .mk _ _ _ c => c

/-- Namespace-qualified tags (Clark notation, as ElementTree stores them). -/
def atomLinkTag : String := "\x7bhttp://www.w3.org/2005/Atom\x7dlink"

def dcCreatorTag : String := "\x7bhttp://purl.org/dc/elements/1.1/\x7dcreator"

def mediaGroupTag : String := "\x7bhttp://search.yahoo.com/mrss/\x7dgroup"

def mediaContentTag : String := "\x7bhttp://search.yahoo.com/mrss/\x7dcontent"

def mediaTitleTag : String := "\x7bhttp://search.yahoo.com/mrss/\x7dtitle"

def mediaDescriptionTag : String := "\x7bhttp://search.yahoo.com/mrss/\x7ddescription"

def mediaThumbnailTag : String := "\x7bhttp://search.yahoo.com/mrss/\x7dthumbnail"

def mediaPlayerTag : String := "\x7bhttp://search.yahoo.com/mrss/\x7dplayer"

def ytVideoIdTag : String := "\x7bhttp://www.youtube.com/xml/schemas/2015\x7dvideoId"

def ytChannelIdTag : String := "\x7bhttp://www.youtube.com/xml/schemas/2015\x7dchannelId"

/-- Attribute serialization of `tostring`: every value goes through
`_escape_attrib`. -/
def serializeAttrs : List (String × String) → String
  | [] => ""
  | (k, v) :: rest => " " ++ k ++ "=\"" ++ xmlEscapeAttr v ++ "\"" ++ serializeAttrs rest

mutual

/-- `tostring(·, encoding="unicode")`: an element with falsy text and no
children is self-closed; otherwise text (escaped by `_escape_cdata`) then
children are written between the tags. -/
def serializeElem : Elem → String
  | .mk tag attrs text children =>
    if text.isEmpty && children.isEmpty then
      "<" ++ tag ++ serializeAttrs attrs ++ " />"
    else
      "<" ++ tag ++ serializeAttrs attrs ++ ">" ++ xmlEscapeText text ++
        serializeList children ++ "</" ++ tag ++ ">"

def serializeList : List Elem → String
  | [] => ""
  | c :: cs => serializeElem c ++ serializeList cs

end

/-! ### RFC-822 date formatting

`strftime("%a, %d %b %Y %H:%M:%S +0000")`.  The weekday is computed from
the calendar date (Sakamoto's method, 0 = Sunday). -/

def pad2 (n : Nat) : String := if n < 10 then "0" ++ toString n else toString n

def pad4 (n : Nat) : String :=
  if n < 10 then "000" ++ toString n
  else if n < 100 then "00" ++ toString n
  else if n < 1000 then "0" ++ toString n
  else toString n

def dayOfWeek (y m d : Nat) : Nat :=
  let t : List Nat := [0, 3, 2, 5, 0, 3, 5, 1, 4, 6, 2, 4]
  let y2 := if m < 3 then y - 1 else y
  (y2 + y2 / 4 - y2 / 100 + y2 / 400 + t.getD (m - 1) 0 + d) % 7

def dayName (dt : DateTime) : String :=
  (["Sun", "Mon", "Tue", "Wed", "Thu", "Fri", "Sat"]).getD
    (dayOfWeek dt.year dt.month dt.day) "Sun"

def monName (m : Nat) : String :=
  (["Jan", "Feb", "Mar", "Apr", "May", "Jun", "Jul", "Aug", "Sep", "Oct",
    "Nov", "Dec"]).getD (m - 1) "Jan"

def rfc822 (dt : DateTime) : String :=
  dayName dt ++ ", " ++ pad2 dt.day ++ " " ++ monName dt.month ++ " " ++
    pad4 dt.year ++ " " ++ pad2 dt.hour ++ ":" ++ pad2 dt.minute ++ ":" ++
    pad2 dt.second ++ " +0000"

/-! ### Item construction -/

/-- The `description_html` fragment (lines 291-304): HTML markup whose
description text and title are passed through `html.escape`, the whole
fragment finally `.strip()`-ed.  The branch is on the truthiness of
`entry["video_id"]`. -/
def buildDescriptionHtml (e : Entry) : String :=
  if pyTruthyOpt e.video_id then
    pyStrip ("\n<p>" ++ htmlEscape e.description ++ "</p>\n<p><a href=\"" ++
      e.link ++ "\">Watch on YouTube</a></p>\n<p><img src=\"" ++
      e.thumbnail_high ++ "\" alt=\"" ++ htmlEscape e.title ++ "\" /></p>\n")
  else
    let thumbnail_html : String :=
      if pyTruthy e.thumbnail_high then
        "<p><img src=\"" ++ e.thumbnail_high ++ "\" alt=\"" ++
          htmlEscape e.title ++ "\" /></p>"
      else ""
    pyStrip ("\n" ++ thumbnail_html ++ "\n<p>" ++ htmlEscape e.description ++
      "</p>\n<p><a href=\"" ++ e.link ++ "\">Read more</a></p>\n")

/-- The `media:group` subtree (lines 307-346). -/
def buildMediaGroup (e : Entry) : Elem :=
  Elem.mk mediaGroupTag [] ""
    ((if pyTruthyOpt e.video_id then
        [Elem.mk mediaContentTag
          [("url", e.embed_url.getD ""),
           ("type", "application/x-shockwave-flash"), ("medium", "video")] "" []]
      else []) ++
     [Elem.mk mediaTitleTag [("type", "plain")] e.title [],
      Elem.mk mediaDescriptionTag [("type", "plain")] (e.description.take 500) []] ++
     (if pyTruthyOpt e.video_id then
        [Elem.mk mediaThumbnailTag
          [("url", e.thumbnail_default), ("width", "120"), ("height", "90")] "" [],
         Elem.mk mediaThumbnailTag
          [("url", e.thumbnail_medium), ("width", "320"), ("height", "180")] "" [],
         Elem.mk mediaThumbnailTag
          [("url", e.thumbnail_high), ("width", "480"), ("height", "360")] "" [],
         Elem.mk mediaThumbnailTag
          [("url", e.thumbnail_maxres), ("width", "1280"), ("height", "720")] "" []]
      else if pyTruthy e.thumbnail_high then
        [Elem.mk mediaThumbnailTag [("url", e.thumbnail_high)] "" []]
      else []) ++
     (if pyTruthyOpt e.video_id then
        [Elem.mk mediaPlayerTag [("url", e.link)] "" []]
      else []))

/-- One `<item>` subtree (lines 272-362). -/
def buildItem (e : Entry) : Elem :=
  Elem.mk "item" [] ""
    ([Elem.mk "title" [] e.title [],
      Elem.mk "link" [] e.link [],
      Elem.mk "guid" [("isPermaLink", "true")] e.link [],
      Elem.mk "pubDate" [] (rfc822 e.published) [],
      Elem.mk dcCreatorTag [] e.author [],
      Elem.mk "description" [] (buildDescriptionHtml e) []] ++
     (if pyTruthy e.thumbnail_high || pyTruthyOpt e.video_id then
        [buildMediaGroup e]
      else []) ++
     (if pyTruthyOpt e.video_id then
        [Elem.mk ytVideoIdTag [] (e.video_id.getD "") []]
      else []) ++
     (if pyTruthyOpt e.channel_id then
        [Elem.mk ytChannelIdTag [] (e.channel_id.getD "") []]
      else []) ++
     [Elem.mk "category" [] e.channel_name []] ++
     (if pyTruthy e.content_type then
        [Elem.mk "category" [] e.content_type []]
      else []))

/-- The `<channel>` subtree: fixed metadata, the build timestamp, then one
item per entry. -/
def buildChannelElem (buildNow : DateTime) (entries : List Entry) : Elem :=
  Elem.mk "channel" [] ""
    ([Elem.mk "title" [] FEED_TITLE [],
      Elem.mk "link" [] FEED_LINK [],
      Elem.mk "description" [] FEED_DESCRIPTION [],
      Elem.mk "language" [] "en-us" [],
      Elem.mk "lastBuildDate" [] (rfc822 buildNow) [],
      Elem.mk "generator" [] "Skratch YouTube RSS Aggregator" [],
      Elem.mk atomLinkTag
        [("href", "https://skratch.golf/feeds/videos.xml"), ("rel", "self"),
         ("type", "application/rss+xml")] "" [],
      Elem.mk "image" [] ""
        [Elem.mk "url" []
          "https://storage.googleapis.com/prod-skratch-strapi/logo-black.svg" [],
         Elem.mk "title" [] FEED_TITLE [],
         Elem.mk "link" [] FEED_LINK []]] ++
     entries.map buildItem)

/-- The `<rss>` root with its namespace declarations. -/
def buildRssElem (buildNow : DateTime) (entries : List Entry) : Elem :=
  Elem.mk "rss"
    [("version", "2.0"),
     ("xmlns:atom", "http://www.w3.org/2005/Atom"),
     ("xmlns:media", "http://search.yahoo.com/mrss/"),
     ("xmlns:yt", "http://www.youtube.com/xml/schemas/2015"),
     ("xmlns:dc", "http://purl.org/dc/elements/1.1/")] ""
    [buildChannelElem buildNow entries]

/-- `build_mrss_feed`: the serialized tree.  The `datetime.now` of
`lastBuildDate` is the `buildNow` parameter. -/
def build_mrss_feed (buildNow : DateTime) (entries : List Entry) : String :=
  serializeElem (buildRssElem buildNow entries)

/-- The final document of `main`: fixed XML declaration line, then the
serialized body. -/
def mainDocument (now buildNow : DateTime)
    (resolveHandle : String → Option String)
    (channels : List (ChannelCfg × Except String (List RawEntry)))
    (feeds : List (FeedCfg × Except String (List RawEntry))) : String :=
  "<?xml version=\"1.0\" encoding=\"UTF-8\"?>\n" ++
    build_mrss_feed buildNow
      ((sortEntries (mainEntries now resolveHandle channels feeds)).take MAX_TOTAL_ITEMS)

/-! ### Tree observation functions (for the schema properties) -/

mutual

/-- How many elements of the subtree carry the given tag. -/
def countTag (t : String) : Elem → Nat
  | .mk tag _ _ children => (if tag = t then 1 else 0) + countTagInList t children

def countTagInList (t : String) : List Elem → Nat
  | [] => 0
  | c :: cs => countTag t c + countTagInList t cs

end

mutual

/-- How many elements of the subtree carry the given tag and a `url`
attribute with the given value. -/
def countTagUrl (t u : String) : Elem → Nat
  | .mk tag attrs _ children =>
    (if tag = t ∧ ("url", u) ∈ attrs then 1 else 0) +
      countTagUrlInList t u children

def countTagUrlInList (t u : String) : List Elem → Nat
  | [] => 0
  | c :: cs => countTagUrl t u c + countTagUrlInList t u cs

end

mutual

/-- The text contents of all elements of the subtree with the given tag,
in document order. -/
def textsOfTag (t : String) : Elem → List String
  | .mk tag _ text children =>
    (if tag = t then [text] else []) ++ textsOfTagInList t children

def textsOfTagInList (t : String) : List Elem → List String
  | [] => []
  | c :: cs => textsOfTag t c ++ textsOfTagInList t cs

end

/-! ## Concrete fixtures for witnesses and counterexamples -/

/-- The example timestamp 2024-01-03T10:00:00. -/
def now0 : DateTime := ⟨2024, 1, 3, 10, 0, 0, 0⟩

/-- A wall-clock reading with sub-second content, as `datetime.now()`
actually returns. -/
def nowMicro : DateTime := ⟨2024, 1, 3, 10, 0, 0, 123456⟩

def t0ex : TimeStruct := ⟨2024, 1, 3, 10, 0, 0, 2, 3, 0⟩

def ch0 : ChannelCfg := ⟨some "Skratch", some "UCwtGQ3sgidNlQGbIUBPP3xw", none⟩

def cfg0 : FeedCfg :=
  ⟨some "Skratch Articles", some "https://www.skratch.golf/rss", some "article"⟩

/-- A raw channel entry with no `yt_videoid` and a link from which no
11-character identifier can be extracted. -/
def rawNoId : RawEntry :=
  { title := none, link := some "https://example.com/page", summary := none,
    description := none, published := none, published_parsed := none,
    updated_parsed := none, author := none, dc_creator := none,
    yt_videoid := none, media_content := [], media_thumbnail := [] }

/-- A raw entry that does carry a parsed publish time. -/
def rawWithDate : RawEntry :=
  { title := some "A1", link := some "https://www.skratch.golf/a1",
    summary := some "text", description := none, published := some "x",
    published_parsed := some t0ex, updated_parsed := none, author := none,
    dc_creator := none, yt_videoid := none, media_content := [],
    media_thumbnail := [] }

/-- Example video entry `E0` of the spec scenario. -/
def E0ex : Entry :=
  { title := "V1", link := "https://www.youtube.com/watch?v=abcdefghijk",
    video_id := some "abcdefghijk", description := "d0",
    published := ⟨2024, 1, 3, 10, 0, 0, 0⟩, published_str := "", author := "a0",
    channel_name := "Skratch", channel_id := some "UCwtGQ3sgidNlQGbIUBPP3xw",
    thumbnail_default := "https://img.youtube.com/vi/abcdefghijk/default.jpg",
    thumbnail_medium := "https://img.youtube.com/vi/abcdefghijk/mqdefault.jpg",
    thumbnail_high := "https://img.youtube.com/vi/abcdefghijk/hqdefault.jpg",
    thumbnail_maxres := "https://img.youtube.com/vi/abcdefghijk/maxresdefault.jpg",
    embed_url := some "https://www.youtube.com/embed/abcdefghijk",
    content_type := "video" }

/-- Example article entry `E1` of the spec scenario. -/
def E1ex : Entry :=
  { title := "A1", link := "https://www.skratch.golf/a1", video_id := none,
    description := "d1", published := ⟨2024, 1, 1, 0, 0, 0, 0⟩,
    published_str := "", author := "a1", channel_name := "Skratch Articles",
    channel_id := none, thumbnail_default := "", thumbnail_medium := "",
    thumbnail_high := "", thumbnail_maxres := "", embed_url := none,
    content_type := "article" }

/-- Example article entry `E2` of the spec scenario (same publish time as
`E0`). -/
def E2ex : Entry :=
  { title := "A2", link := "https://www.skratch.golf/a2", video_id := none,
    description := "d2", published := ⟨2024, 1, 3, 10, 0, 0, 0⟩,
    published_str := "", author := "a2", channel_name := "Skratch Articles",
    channel_id := none, thumbnail_default := "", thumbnail_medium := "",
    thumbnail_high := "", thumbnail_maxres := "", embed_url := none,
    content_type := "article" }

/-! ## Helper lemmas: strings and `str.strip()` -/

theorem append_isEmpty_left (x y : String) (hx : x.isEmpty = false) :
    (x ++ y).isEmpty = false := by
  rw [Bool.eq_false_iff]
  intro hc
  rw [String.isEmpty_iff] at hc
  have hdata : x.data ++ y.data = [] := by
    rw [← String.data_append, hc]
  have hx2 : x = "" := String.ext (List.append_eq_nil.mp hdata).1
  rw [(String.isEmpty_iff x).mpr hx2] at hx
  cases hx

theorem dropLeadingWs_append (l1 l2 : List Char)
    (h : (dropLeadingWs l1).isEmpty = false) :
    dropLeadingWs (l1 ++ l2) = dropLeadingWs l1 ++ l2 := by
  rw [List.isEmpty_eq_false] at h
  simp [dropLeadingWs, List.dropWhile_append] at *
  simp [h]

theorem dropTrailingWs_append (l1 l2 : List Char)
    (h : (l2.reverse.dropWhile isPySpace).isEmpty = false) :
    dropTrailingWs (l1 ++ l2) = l1 ++ dropTrailingWs l2 := by
  rw [List.isEmpty_eq_false] at h
  rw [dropTrailingWs, List.reverse_append, List.dropWhile_append]
  simp [h, dropTrailingWs]

/-- `str.strip()` of a string sandwiched between a chunk holding a
non-blank character and a chunk ending in a non-blank character only trims
the two chunks. -/
theorem pyStrip_sandwich (x m y : String)
    (hx : (dropLeadingWs x.data).isEmpty = false)
    (hy : (y.data.reverse.dropWhile isPySpace).isEmpty = false) :
    pyStrip (x ++ (m ++ y)) =
      String.mk (dropLeadingWs x.data) ++ (m ++ String.mk (dropTrailingWs y.data)) := by
  apply String.ext
  show dropTrailingWs (dropLeadingWs (x ++ (m ++ y)).data) = _
  rw [String.data_append, String.data_append]
  rw [dropLeadingWs_append _ _ hx]
  rw [show dropLeadingWs x.data ++ (m.data ++ y.data) =
      (dropLeadingWs x.data ++ m.data) ++ y.data from (List.append_assoc _ _ _).symm]
  rw [dropTrailingWs_append _ _ hy]
  simp [String.data_append, List.append_assoc]

/-- The `description_html` fragment with the final `.strip()` evaluated:
the three shapes it can take, depending on the truthiness of
`entry["video_id"]` and `entry["thumbnail_high"]`. -/
theorem buildDescriptionHtml_eq (e : Entry) :
    buildDescriptionHtml e =
      if pyTruthyOpt e.video_id then
        "<p>" ++ (htmlEscape e.description ++ ("</p>\n<p><a href=\"" ++
          (e.link ++ ("\">Watch on YouTube</a></p>\n<p><img src=\"" ++
          (e.thumbnail_high ++ ("\" alt=\"" ++
          (htmlEscape e.title ++ "\" /></p>")))))))
      else if pyTruthy e.thumbnail_high then
        "<p><img src=\"" ++ (e.thumbnail_high ++ ("\" alt=\"" ++
          (htmlEscape e.title ++ ("\" /></p>" ++ ("\n<p>" ++
          (htmlEscape e.description ++ ("</p>\n<p><a href=\"" ++
          (e.link ++ "\">Read more</a></p>"))))))))
      else
        "<p>" ++ (htmlEscape e.description ++ ("</p>\n<p><a href=\"" ++
          (e.link ++ "\">Read more</a></p>"))) := by
  unfold buildDescriptionHtml
  by_cases hv : pyTruthyOpt e.video_id = true
  · simp only [hv, if_true]
    rw [show ("\n<p>" ++ htmlEscape e.description ++ "</p>\n<p><a href=\"" ++
        e.link ++ "\">Watch on YouTube</a></p>\n<p><img src=\"" ++
        e.thumbnail_high ++ "\" alt=\"" ++ htmlEscape e.title ++ "\" /></p>\n") =
        "\n<p>" ++ ((htmlEscape e.description ++ ("</p>\n<p><a href=\"" ++
        (e.link ++ ("\">Watch on YouTube</a></p>\n<p><img src=\"" ++
        (e.thumbnail_high ++ ("\" alt=\"" ++ htmlEscape e.title)))))) ++
        "\" /></p>\n") from by simp only [String.append_assoc]]
    rw [pyStrip_sandwich _ _ _ (by decide) (by decide)]
    rw [show String.mk (dropLeadingWs ("\n<p>" : String).data) = "<p>" from by decide]
    rw [show String.mk (dropTrailingWs ("\" /></p>\n" : String).data) = "\" /></p>"
      from by decide]
    simp only [String.append_assoc]
  · rw [Bool.not_eq_true] at hv
    simp only [hv, Bool.false_eq_true, if_false]
    by_cases ht : pyTruthy e.thumbnail_high = true
    · simp only [ht, if_true]
      rw [show ("\n" ++ ("<p><img src=\"" ++ e.thumbnail_high ++ "\" alt=\"" ++
          htmlEscape e.title ++ "\" /></p>") ++ "\n<p>" ++ htmlEscape e.description ++
          "</p>\n<p><a href=\"" ++ e.link ++ "\">Read more</a></p>\n") =
          ("\n" ++ "<p><img src=\"") ++ ((e.thumbnail_high ++ ("\" alt=\"" ++
          (htmlEscape e.title ++ ("\" /></p>" ++ ("\n<p>" ++
          (htmlEscape e.description ++ ("</p>\n<p><a href=\"" ++ e.link))))))) ++
          "\">Read more</a></p>\n") from by simp only [String.append_assoc]]
      rw [pyStrip_sandwich _ _ _ (by decide) (by decide)]
      rw [show String.mk (dropLeadingWs (("\n" ++ "<p><img src=\"") : String).data) =
        "<p><img src=\"" from by decide]
      rw [show String.mk (dropTrailingWs ("\">Read more</a></p>\n" : String).data) =
        "\">Read more</a></p>" from by decide]
      simp only [String.append_assoc]
    · rw [Bool.not_eq_true] at ht
      simp only [ht, Bool.false_eq_true, if_false]
      rw [show ("\n" ++ "" ++ "\n<p>" ++ htmlEscape e.description ++
          "</p>\n<p><a href=\"" ++ e.link ++ "\">Read more</a></p>\n") =
          ("\n" ++ "\n<p>") ++ ((htmlEscape e.description ++
          ("</p>\n<p><a href=\"" ++ e.link)) ++ "\">Read more</a></p>\n") from by
          simp only [String.append_assoc, String.append_empty, String.empty_append]]
      rw [pyStrip_sandwich _ _ _ (by decide) (by decide)]
      rw [show String.mk (dropLeadingWs (("\n" ++ "\n<p>") : String).data) = "<p>"
        from by decide]
      rw [show String.mk (dropTrailingWs ("\">Read more</a></p>\n" : String).data) =
        "\">Read more</a></p>" from by decide]
      simp only [String.append_assoc]

theorem buildDescriptionHtml_isEmpty_false (e : Entry) :
    (buildDescriptionHtml e).isEmpty = false := by
  rw [buildDescriptionHtml_eq]
  by_cases hv : pyTruthyOpt e.video_id = true
  · simp only [hv, if_true]
    exact append_isEmpty_left _ _ (by decide)
  · rw [Bool.not_eq_true] at hv
    simp only [hv, Bool.false_eq_true, if_false]
    by_cases ht : pyTruthy e.thumbnail_high = true
    · simp only [ht, if_true]
      exact append_isEmpty_left _ _ (by decide)
    · rw [Bool.not_eq_true] at ht
      simp only [ht, Bool.false_eq_true, if_false]
      exact append_isEmpty_left _ _ (by decide)

/-! ## Helper lemmas: the sort comparison -/

theorem dtLe_refl (a : DateTime) : dtLe a a = true := by
  simp [dtLe]

theorem dtLe_trans {a b c : DateTime} (h1 : dtLe a b = true)
    (h2 : dtLe b c = true) : dtLe a c = true := by
  simp only [dtLe, decide_eq_true_eq] at *
  exact le_trans h1 h2

theorem dtLe_total (a b : DateTime) : (dtLe a b || dtLe b a) = true := by
  simp only [dtLe, Bool.or_eq_true, decide_eq_true_eq]
  exact le_total _ _

theorem entryBefore_trans : ∀ a b c : Entry, entryBefore a b = true →
    entryBefore b c = true → entryBefore a c = true :=
  fun _ _ _ h1 h2 => dtLe_trans h2 h1

theorem entryBefore_total : ∀ a b : Entry,
    (entryBefore a b || entryBefore b a) = true :=
  fun a b => dtLe_total b.published a.published

/-- Claim C1: the aggregated output (concatenation in source order, stable
sort by `published` descending, cap) is non-increasing in `published`, it
is a prefix of the sorted concatenation, and entries with equal
`published` keep their concatenation order in the sorted sequence. -/
theorem aggregate_sorted_and_tiebreak_stable (perSource : List (List Entry)) :
    (aggregate perSource).Pairwise (fun a b => dtLe b.published a.published = true) ∧
    aggregate perSource = (sortEntries perSource.flatten).take MAX_TOTAL_ITEMS ∧
    ∀ a b : Entry, a.published = b.published →
      List.Sublist [a, b] perSource.flatten →
      List.Sublist [a, b] (sortEntries perSource.flatten) := by
  refine ⟨?_, ?_, ?_⟩
  · have hs := List.sorted_mergeSort entryBefore_trans
      entryBefore_total perSource.flatten
    exact List.Pairwise.sublist (List.take_sublist _ _) hs
  · rfl
  · intro a b heq hsub
    refine List.pair_sublist_mergeSort entryBefore_trans entryBefore_total ?_ hsub
    show dtLe b.published a.published = true
    rw [heq]
    exact dtLe_refl _

/-- Witness for C1, following the spec's example scenario: `E0` and `E2`
have equal publish times, `E0` precedes `E2` in the concatenation, and the
sorted sequence keeps that order. -/
theorem aggregate_sorted_and_tiebreak_stable_witness :
    E0ex.published = E2ex.published ∧
    List.Sublist [E0ex, E2ex] ([[E0ex, E1ex], [E2ex]] : List (List Entry)).flatten ∧
    List.Sublist [E0ex, E2ex]
      (sortEntries ([[E0ex, E1ex], [E2ex]] : List (List Entry)).flatten) :=
  ⟨by decide, by decide,
    (aggregate_sorted_and_tiebreak_stable [[E0ex, E1ex], [E2ex]]).2.2 E0ex E2ex
      (by decide) (by decide)⟩

/-- Claim C6: the aggregated length is the minimum of the total number of
entries and the cap. -/
theorem aggregate_length_eq (totalCap : Nat) (perSource : List (List Entry)) :
    (aggregateCap totalCap perSource).length =
      min ((perSource.map List.length).sum) totalCap ∧
    (aggregate perSource).length =
      min ((perSource.map List.length).sum) MAX_TOTAL_ITEMS := by
  constructor
  · simp [aggregateCap, sortEntries, List.length_take]
    omega
  · simp [aggregate, aggregateCap, sortEntries, List.length_take]
    omega

theorem fetch_standard_rss_feed_error (now : DateTime) (cfg : FeedCfg)
    (msg : String) : fetch_standard_rss_feed now cfg (Except.error msg) = [] := by
  unfold fetch_standard_rss_feed
  split <;> rfl

theorem fetch_channel_feed_error (now : DateTime)
    (rh : String → Option String) (ch : ChannelCfg) (msg : String) :
    fetch_channel_feed now rh ch (Except.error msg) = [] := by
  unfold fetch_channel_feed
  split <;> (split <;> simp_all)

theorem fetch_channel_feed_ok_nil (now : DateTime)
    (rh : String → Option String) (ch : ChannelCfg) :
    fetch_channel_feed now rh ch (Except.ok []) = [] := by
  unfold fetch_channel_feed
  split <;> (split <;> simp_all)

/-- Claim C8: a failing source contributes zero entries; the aggregation
sees only entry lists, an empty list for the failed source, and the final
document is the same as if the source had parsed to an empty feed. -/
theorem source_failures_isolated :
    (∀ now cfg msg, fetch_standard_rss_feed now cfg (Except.error msg) = []) ∧
    (∀ now rh ch msg, fetch_channel_feed now rh ch (Except.error msg) = []) ∧
    (∀ (totalCap : Nat) (l1 l2 : List (List Entry)),
      aggregateCap totalCap (l1 ++ [] :: l2) = aggregateCap totalCap (l1 ++ l2)) ∧
    (∀ now buildNow rh cs1 ch msg cs2 feeds,
      mainDocument now buildNow rh (cs1 ++ (ch, Except.error msg) :: cs2) feeds =
        mainDocument now buildNow rh (cs1 ++ (ch, Except.ok []) :: cs2) feeds) := by
  refine ⟨fetch_standard_rss_feed_error, fetch_channel_feed_error, ?_, ?_⟩
  · intro totalCap l1 l2
    simp [aggregateCap, List.flatten_append]
  · intro now buildNow rh cs1 ch msg cs2 feeds
    unfold mainDocument mainEntries
    rw [List.map_append, List.map_append, List.map_cons, List.map_cons]
    rw [show fetch_channel_feed now rh (ch, Except.error msg).1
        (ch, Except.error msg).2 = fetch_channel_feed now rh (ch, Except.ok []).1
        (ch, Except.ok []).2 from by
      show fetch_channel_feed now rh ch (Except.error msg) =
        fetch_channel_feed now rh ch (Except.ok [])
      rw [fetch_channel_feed_error, fetch_channel_feed_ok_nil]]

/-- Claim C9: with the build timestamp fixed, the serializer is a function
of the document alone — equal inputs give byte-identical output. -/
theorem build_mrss_feed_deterministic (buildNow : DateTime)
    (es1 es2 : List Entry) (h : es1 = es2) :
    build_mrss_feed buildNow es1 = build_mrss_feed buildNow es2 := by
  rw [h]

/-- Witness for C9. -/
theorem build_mrss_feed_deterministic_witness :
    ([E0ex] : List Entry) = [E0ex] ∧
    build_mrss_feed now0 [E0ex] = build_mrss_feed now0 [E0ex] :=
  ⟨rfl, build_mrss_feed_deterministic now0 [E0ex] [E0ex] rfl⟩

/-- Claim C5, amended: `published` is never absent, in both normalizers:
when the raw entry has a parsed publish time it is `datetime(*t[:6])` —
the six calendar fields with `microsecond` left at `0`, whole-second
precision; when it has none, `published` is the processing clock's
`datetime.now()` reading unchanged — with whatever sub-second content the
clock carries, neither truncated to whole seconds nor normalized to
UTC. -/
theorem published_parsed_truncated_else_raw_now :
    (∀ now cfg e t, pickParsed e = some t →
      (normalizeStandardEntry now cfg e).published =
        ⟨t.tm_year, t.tm_mon, t.tm_mday, t.tm_hour, t.tm_min, t.tm_sec, 0⟩) ∧
    (∀ now cfg e, pickParsed e = none →
      (normalizeStandardEntry now cfg e).published = now) ∧
    (∀ now ch cid e t, e.published_parsed = some t →
      (normalizeChannelEntry now ch cid e).published =
        ⟨t.tm_year, t.tm_mon, t.tm_mday, t.tm_hour, t.tm_min, t.tm_sec, 0⟩) ∧
    (∀ now ch cid e, e.published_parsed = none →
      (normalizeChannelEntry now ch cid e).published = now) := by
  refine ⟨?_, ?_, ?_, ?_⟩
  · intro now cfg e t h
    simp [normalizeStandardEntry, h, dtOfTimeStruct]
  · intro now cfg e h
    simp [normalizeStandardEntry, h]
  · intro now ch cid e t h
    simp [normalizeChannelEntry, h, dtOfTimeStruct]
  · intro now ch cid e h
    simp [normalizeChannelEntry, h]

/-- Counterexample to C5 as stated: an entry without a parsed publish time
stores the `datetime.now()` reading untouched (lines 114 and 193), so when
the clock carries microseconds the resulting `published` is not a
whole-second timestamp. -/
theorem fallback_published_keeps_microseconds :
    rawNoId.published_parsed = none ∧
    (normalizeChannelEntry nowMicro ch0 ch0.channel_id rawNoId).published =
      nowMicro ∧
    (normalizeChannelEntry nowMicro ch0 ch0.channel_id
      rawNoId).published.microsecond = 123456 :=
  ⟨rfl, rfl, rfl⟩

/-- Witness for the amended C5: a raw entry carrying a parsed time and one
without. -/
theorem published_parsed_truncated_else_raw_now_witness :
    pickParsed rawWithDate = some t0ex ∧
    (normalizeStandardEntry now0 cfg0 rawWithDate).published =
      ⟨t0ex.tm_year, t0ex.tm_mon, t0ex.tm_mday, t0ex.tm_hour, t0ex.tm_min,
        t0ex.tm_sec, 0⟩ ∧
    rawNoId.published_parsed = none ∧
    (normalizeChannelEntry nowMicro ch0 ch0.channel_id rawNoId).published =
      nowMicro :=
  ⟨by decide,
   published_parsed_truncated_else_raw_now.1 now0 cfg0 rawWithDate t0ex (by decide),
   by decide,
   published_parsed_truncated_else_raw_now.2.2.2 nowMicro ch0 ch0.channel_id
     rawNoId (by decide)⟩

/-- Claim C2, amended: every channel-normalized entry derives all four
thumbnail URLs and the embed URL from its `video_id` by the fixed
templates — also when the identifier is unresolvable, in which case
`video_id` is the empty string and the URLs are the templates applied to
the empty string, not null. -/
theorem channel_urls_always_derived (now : DateTime) (ch : ChannelCfg)
    (cid : Option String) (e : RawEntry) :
    ∃ v, (normalizeChannelEntry now ch cid e).video_id = some v ∧
      (normalizeChannelEntry now ch cid e).thumbnail_default =
        "https://img.youtube.com/vi/" ++ v ++ "/default.jpg" ∧
      (normalizeChannelEntry now ch cid e).thumbnail_medium =
        "https://img.youtube.com/vi/" ++ v ++ "/mqdefault.jpg" ∧
      (normalizeChannelEntry now ch cid e).thumbnail_high =
        "https://img.youtube.com/vi/" ++ v ++ "/hqdefault.jpg" ∧
      (normalizeChannelEntry now ch cid e).thumbnail_maxres =
        "https://img.youtube.com/vi/" ++ v ++ "/maxresdefault.jpg" ∧
      (normalizeChannelEntry now ch cid e).embed_url =
        some ("https://www.youtube.com/embed/" ++ v) :=
  ⟨resolvedVideoId e, rfl, rfl, rfl, rfl, rfl, rfl⟩

/-- Counterexample to C2 as stated: a channel entry with no
video-identifier tag and no extractable identifier ends up with a falsy
(empty) `video_id`, yet `embed_url` and the thumbnail URLs are non-null
template strings with an empty identifier spliced in. -/
theorem channel_null_video_id_nonnull_urls :
    pyTruthyOpt (normalizeChannelEntry now0 ch0 ch0.channel_id rawNoId).video_id
      = false ∧
    (normalizeChannelEntry now0 ch0 ch0.channel_id rawNoId).embed_url =
      some "https://www.youtube.com/embed/" ∧
    (normalizeChannelEntry now0 ch0 ch0.channel_id rawNoId).thumbnail_high =
      "https://img.youtube.com/vi//hqdefault.jpg" := by
  refine ⟨by decide, by decide, by decide⟩

/-- Claim C4, amended: the anchor label of the description fragment is
chosen by the truthiness of `video_id`, not by the content kind:
"Watch on YouTube" when `video_id` is truthy, "Read more" otherwise. -/
theorem anchor_label_by_video_id (e : Entry) :
    (pyTruthyOpt e.video_id = true →
      ∃ l r, buildDescriptionHtml e = l ++ ("Watch on YouTube" ++ r)) ∧
    (pyTruthyOpt e.video_id = false →
      ∃ l r, buildDescriptionHtml e = l ++ ("Read more" ++ r)) := by
  constructor
  · intro hv
    rw [buildDescriptionHtml_eq]
    simp only [hv, if_true]
    refine ⟨"<p>" ++ (htmlEscape e.description ++ ("</p>\n<p><a href=\"" ++
      (e.link ++ "\">"))),
      "</a></p>\n<p><img src=\"" ++ (e.thumbnail_high ++ ("\" alt=\"" ++
      (htmlEscape e.title ++ "\" /></p>"))), ?_⟩
    rw [show ("\">Watch on YouTube</a></p>\n<p><img src=\"" : String) =
      "\">" ++ ("Watch on YouTube" ++ "</a></p>\n<p><img src=\"") from by decide]
    simp only [String.append_assoc]
  · intro hv
    rw [buildDescriptionHtml_eq]
    simp only [hv, Bool.false_eq_true, if_false]
    by_cases ht : pyTruthy e.thumbnail_high = true
    · simp only [ht, if_true]
      refine ⟨"<p><img src=\"" ++ (e.thumbnail_high ++ ("\" alt=\"" ++
        (htmlEscape e.title ++ ("\" /></p>" ++ ("\n<p>" ++
        (htmlEscape e.description ++ ("</p>\n<p><a href=\"" ++
        (e.link ++ "\">")))))))), "</a></p>", ?_⟩
      rw [show ("\">Read more</a></p>" : String) =
        "\">" ++ ("Read more" ++ "</a></p>") from by decide]
      simp only [String.append_assoc]
    · rw [Bool.not_eq_true] at ht
      simp only [ht, Bool.false_eq_true, if_false]
      refine ⟨"<p>" ++ (htmlEscape e.description ++ ("</p>\n<p><a href=\"" ++
        (e.link ++ "\">"))), "</a></p>", ?_⟩
      rw [show ("\">Read more</a></p>" : String) =
        "\">" ++ ("Read more" ++ "</a></p>") from by decide]
      simp only [String.append_assoc]

/-- Witness for the amended C4: both branches at concrete entries. -/
theorem anchor_label_by_video_id_witness :
    pyTruthyOpt E0ex.video_id = true ∧
    (∃ l r, buildDescriptionHtml E0ex = l ++ ("Watch on YouTube" ++ r)) ∧
    pyTruthyOpt E1ex.video_id = false ∧
    (∃ l r, buildDescriptionHtml E1ex = l ++ ("Read more" ++ r)) :=
  ⟨by decide, (anchor_label_by_video_id E0ex).1 (by decide),
   by decide, (anchor_label_by_video_id E1ex).2 (by decide)⟩

set_option maxRecDepth 8192 in
/-- Counterexample to C4 as stated: a channel entry whose identifier
cannot be resolved has content kind "video" but its description fragment
carries the "Read more" anchor and no "Watch on YouTube" label. -/
theorem video_kind_entry_gets_read_more :
    (normalizeChannelEntry now0 ch0 ch0.channel_id rawNoId).content_type =
      "video" ∧
    buildDescriptionHtml (normalizeChannelEntry now0 ch0 ch0.channel_id rawNoId) =
      "<p><img src=\"https://img.youtube.com/vi//hqdefault.jpg\" alt=\"Untitled\" /></p>\n<p></p>\n<p><a href=\"https://example.com/page\">Read more</a></p>" ∧
    ¬ List.IsInfix "Watch on YouTube".data
      (buildDescriptionHtml
        (normalizeChannelEntry now0 ch0 ch0.channel_id rawNoId)).data := by
  refine ⟨by decide, by decide, by decide⟩

/-! ## Helper lemmas: tree observers -/

theorem textsOfTagInList_append (t : String) (l1 l2 : List Elem) :
    textsOfTagInList t (l1 ++ l2) =
      textsOfTagInList t l1 ++ textsOfTagInList t l2 := by
  induction l1 with
  | nil => simp [textsOfTagInList]
  | cons a as ih => simp [textsOfTagInList, ih]

theorem countTagInList_append (t : String) (l1 l2 : List Elem) :
    countTagInList t (l1 ++ l2) = countTagInList t l1 + countTagInList t l2 := by
  induction l1 with
  | nil => simp [countTagInList]
  | cons a as ih =>
    simp [countTagInList, ih]
    omega

theorem countTagUrlInList_append (t u : String) (l1 l2 : List Elem) :
    countTagUrlInList t u (l1 ++ l2) =
      countTagUrlInList t u l1 + countTagUrlInList t u l2 := by
  induction l1 with
  | nil => simp [countTagUrlInList]
  | cons a as ih =>
    simp [countTagUrlInList, ih]
    omega

set_option maxRecDepth 8192 in
/-- Claim C3: the item's description element's text content is the HTML
fragment in which the description text was already HTML-entity-escaped;
emitting that element XML-escapes the whole fragment again, so the
description's special characters come out double-encoded. -/
theorem description_double_escaped (e : Entry) :
    textsOfTag "description" (buildItem e) = [buildDescriptionHtml e] ∧
    serializeElem (Elem.mk "description" [] (buildDescriptionHtml e) []) =
      "<description>" ++ (xmlEscapeText (buildDescriptionHtml e) ++
        "</description>") ∧
    (∃ l r, buildDescriptionHtml e = l ++ (htmlEscape e.description ++ r)) ∧
    xmlEscapeText (htmlEscape "<em>") = "&amp;lt;em&amp;gt;" := by
  refine ⟨?_, ?_, ?_, by decide⟩
  · by_cases hv : pyTruthyOpt e.video_id = true <;>
    by_cases ht : pyTruthy e.thumbnail_high = true <;>
    by_cases hc : pyTruthyOpt e.channel_id = true <;>
    by_cases hk : pyTruthy e.content_type = true <;>
      simp [buildItem, buildMediaGroup, textsOfTag, textsOfTagInList,
        hv, ht, hc, hk, dcCreatorTag, ytVideoIdTag, ytChannelIdTag,
        mediaGroupTag, mediaContentTag, mediaTitleTag, mediaDescriptionTag,
        mediaThumbnailTag, mediaPlayerTag]
  · have hne := buildDescriptionHtml_isEmpty_false e
    rw [show ("<description>" : String) = "<" ++ ("description" ++ ">") from
      by decide]
    rw [show ("</description>" : String) = "</" ++ ("description" ++ ">") from
      by decide]
    simp only [serializeElem, serializeAttrs, serializeList, hne,
      Bool.false_and, Bool.false_eq_true, if_false, String.append_assoc,
      String.append_empty, String.empty_append]
  · rw [buildDescriptionHtml_eq]
    by_cases hv : pyTruthyOpt e.video_id = true
    · simp only [hv, if_true]
      exact ⟨"<p>", _, rfl⟩
    · rw [Bool.not_eq_true] at hv
      simp only [hv, Bool.false_eq_true, if_false]
      by_cases ht : pyTruthy e.thumbnail_high = true
      · simp only [ht, if_true]
        refine ⟨"<p><img src=\"" ++ (e.thumbnail_high ++ ("\" alt=\"" ++
          (htmlEscape e.title ++ ("\" /></p>" ++ "\n<p>")))),
          "</p>\n<p><a href=\"" ++ (e.link ++ "\">Read more</a></p>"), ?_⟩
        simp only [String.append_assoc]
      · rw [Bool.not_eq_true] at ht
        simp only [ht, Bool.false_eq_true, if_false]
        exact ⟨"<p>", _, rfl⟩

set_option maxRecDepth 8192 in
/-- Claim C7: an item has exactly one `yt:videoId` element and exactly one
`media:content` element (whose `url` is the embed URL) when `video_id` is
truthy, and neither element when it is not resolvable. -/
theorem video_id_elements (e : Entry) :
    (pyTruthyOpt e.video_id = true →
      countTag ytVideoIdTag (buildItem e) = 1 ∧
      countTag mediaContentTag (buildItem e) = 1 ∧
      countTagUrl mediaContentTag (e.embed_url.getD "") (buildItem e) = 1) ∧
    (pyTruthyOpt e.video_id = false →
      countTag ytVideoIdTag (buildItem e) = 0 ∧
      countTag mediaContentTag (buildItem e) = 0) := by
  constructor
  · intro hv
    refine ⟨?_, ?_, ?_⟩ <;>
    by_cases ht : pyTruthy e.thumbnail_high = true <;>
    by_cases hc : pyTruthyOpt e.channel_id = true <;>
    by_cases hk : pyTruthy e.content_type = true <;>
      simp [buildItem, buildMediaGroup, hv, ht, hc, hk, countTag,
        countTagInList, countTagUrl, countTagUrlInList, dcCreatorTag,
        ytVideoIdTag, ytChannelIdTag, mediaGroupTag, mediaContentTag,
        mediaTitleTag, mediaDescriptionTag, mediaThumbnailTag, mediaPlayerTag]
  · intro hv
    constructor <;>
    by_cases ht : pyTruthy e.thumbnail_high = true <;>
    by_cases hc : pyTruthyOpt e.channel_id = true <;>
    by_cases hk : pyTruthy e.content_type = true <;>
      simp [buildItem, buildMediaGroup, hv, ht, hc, hk, countTag,
        countTagInList, dcCreatorTag, ytVideoIdTag, ytChannelIdTag,
        mediaGroupTag, mediaContentTag, mediaTitleTag, mediaDescriptionTag,
        mediaThumbnailTag, mediaPlayerTag]

/-- Witness for C7: the two branches at concrete entries. -/
theorem video_id_elements_witness :
    pyTruthyOpt E0ex.video_id = true ∧
    (countTag ytVideoIdTag (buildItem E0ex) = 1 ∧
      countTag mediaContentTag (buildItem E0ex) = 1 ∧
      countTagUrl mediaContentTag (E0ex.embed_url.getD "") (buildItem E0ex) = 1) ∧
    pyTruthyOpt E1ex.video_id = false ∧
    (countTag ytVideoIdTag (buildItem E1ex) = 0 ∧
      countTag mediaContentTag (buildItem E1ex) = 0) :=
  ⟨by decide, (video_id_elements E0ex).1 (by decide),
   by decide, (video_id_elements E1ex).2 (by decide)⟩

set_option maxRecDepth 8192 in
/-- Claim C10: whenever the item carries a media group (truthy
`thumbnail_high` or truthy `video_id`), the media description's text is
the entry description truncated to its first 500 characters — video
entries included. -/
theorem media_description_truncated (e : Entry)
    (h : (pyTruthy e.thumbnail_high || pyTruthyOpt e.video_id) = true) :
    textsOfTag mediaDescriptionTag (buildItem e) = [e.description.take 500] := by
  by_cases hv : pyTruthyOpt e.video_id = true <;>
  by_cases ht : pyTruthy e.thumbnail_high = true <;>
  by_cases hc : pyTruthyOpt e.channel_id = true <;>
  by_cases hk : pyTruthy e.content_type = true <;>
    simp_all [buildItem, buildMediaGroup, textsOfTag, textsOfTagInList,
      dcCreatorTag, ytVideoIdTag, ytChannelIdTag, mediaGroupTag,
      mediaContentTag, mediaTitleTag, mediaDescriptionTag, mediaThumbnailTag,
      mediaPlayerTag]

/-- Witness for C10: a video entry carrying a media group. -/
theorem media_description_truncated_witness :
    (pyTruthy E0ex.thumbnail_high || pyTruthyOpt E0ex.video_id) = true ∧
    textsOfTag mediaDescriptionTag (buildItem E0ex) = [E0ex.description.take 500] :=
  ⟨by decide, media_description_truncated E0ex (by decide)⟩
